import Mathlib

/-!
Verification of the deployment-configuration compiler of
`scripts/generate_deploymentyaml.py` (sbuglider repository).

The compiler merges several configuration documents (a deployment
template, global attributes, platform metadata, an instrument catalog,
two sensor-definition catalogs and a sensor manifest) into one
deployment descriptor.  This file gives a shallow embedding of the data
model and of the merge algorithm, and proves or refutes the specified
properties about it.

Python dictionaries are embedded as association lists (`List (String × α)`)
with insertion-order semantics: `dget?` is `d[k]` / `d.get(k)`
(first match), `dset` is `d[k] = v` (replace in place, else append),
`dupdate` is `d1.update(d2)`.
-/

set_option autoImplicit false

namespace SbuGlider

universe u

variable {α : Type u}

/-- Scalar values occurring in the configuration documents (attribute
values, metadata values).  The compiler only ever copies these values
around and compares the `source` field against a sensor code, so a
closed scalar type is a faithful value model. -/
inductive AVal where
  | str : String → AVal
  | int : Int → AVal
deriving DecidableEq, Repr

/-- Python `d[k]` / `d.get(k)` on a dict embedded as an association
list: the value at the first matching key, if any. -/
def dget? : List (String × α) → String → Option α
  | [], _ => none
  | (k1, v) :: rest, k => if k1 = k then some v else dget? rest k

/-- Python `d[k] = v`: replace the value at `k` in place if the key is
present, otherwise append the new binding at the end (insertion order). -/
def dset : List (String × α) → String → α → List (String × α)
  | [], k, v => [(k, v)]
  | (k1, v1) :: rest, k, v =>
      if k1 = k then (k, v) :: rest else (k1, v1) :: dset rest k v

/-- Python `d1.update(d2)`: fold `dset` over the entries of `d2`. -/
def dupdate (d1 d2 : List (String × α)) : List (String × α) :=
  d2.foldl (fun acc kv => dset acc kv.1 kv.2) d1

/-- Python `d.copy()`: a shallow copy has the same entries; in the value
model it is the identity.  It is what keeps the raw sensor-definition
catalog unmutated by the subsequent `update`. -/
def dcopy (d : List (String × α)) : List (String × α) := d

/-- `ofirst a b` is `a` if it is `some`, otherwise `b` (Python-style
lookup fallback, used to state `dupdate`/allow-list lookup lemmas). -/
def ofirst (a b : Option α) : Option α :=
  match a with
  | some v => some v
  | none => b

/-! ## Sensor-definition catalogs and the manifest resolution loop -/

/-- A record of `sensor_defs-raw.json` / `sensor_defs-sci_profile.json`.
The compiler only ever accesses the `nc_var_name` and `attrs` fields of a
record (lines 198 and 201 of `generate_deploymentyaml.py`); an absent
field raises `KeyError`, embedded here as `none`. -/
structure SensorDef where
  nc_var_name : Option String
  attrs : Option (List (String × AVal))
deriving DecidableEq, Repr

/-- A sensor-definition catalog: a parsed JSON mapping from raw sensor
code to record. -/
abbrev Catalog := List (String × SensorDef)

/-- Lines 173-174: `combined_data = sdraw_data.copy()` followed by
`combined_data.update(sdprofile_data)`.  The result mirrors the final
values of the three Python variables `combined_data`, `sdraw_data` and
`sdprofile_data` after line 174: the copy is what leaves the two input
catalogs unmutated. -/
def combineCatalogs (sdraw_data sdprofile_data : Catalog) :
    Catalog × Catalog × Catalog :=
  (dupdate (dcopy sdraw_data) sdprofile_data, sdraw_data, sdprofile_data)

/-- The in-flight state of the manifest-resolution loop (lines 189-217):
the working `netcdf_variables` mapping of the template, and the warnings
logged so far. -/
structure SensorState where
  ncvars : List (String × List (String × AVal))
  warnings : List String
deriving DecidableEq, Repr

/-- Lines 27-33, `is_sensor_listed_as_source`: true iff some value of
the `netcdf_variables` mapping has a `source` field equal to `sensor`.
(The Python helper receives the whole template dictionary and projects
`template_data.get("netcdf_variables", {})`; the embedding receives the
projected mapping.) -/
def is_sensor_listed_as_source
    (sensor : String) (netcdf_variables : List (String × List (String × AVal))) : Bool :=
  netcdf_variables.any (fun p => dget? p.2 "source" = some (AVal.str sensor))

/-- The fixed attribute allow-list of lines 202-210. -/
def allowlist : List String :=
  ["axis", "units", "long_name", "standard_name", "valid_min", "valid_max", "fill_value"]

/-- Lines 201-211: iterate over a record's `attrs` mapping and copy the
allow-listed keys into the entry being built. -/
def addAllowed (entry attrs : List (String × AVal)) : List (String × AVal) :=
  attrs.foldl (fun e kv => if kv.1 ∈ allowlist then dset e kv.1 kv.2 else e) entry

/-- The warning message of lines 215-217. -/
def missingDefWarning (sensor : String) : String :=
  "No information found for " ++ sensor ++
    " in sensor_defs-raw.json or sensor_defs-sci_profile.json"

/-- Lines 212-217, the `except KeyError` fallback: install a minimal
entry keyed by the raw sensor code with only `source` set, and log one
warning. -/
def fallbackEntry (st : SensorState) (sensor : String) : SensorState :=
  { ncvars := dset st.ncvars sensor [("source", AVal.str sensor)],
    warnings := st.warnings ++ [missingDefWarning sensor] }

/-- Lines 189-217, the body of `for sensor in sensors`.  The `try` block
looks the code up in the combined catalog (`KeyError` on a miss), reads
`nc_var_name` (`KeyError` if absent, before any mutation), installs the
entry `{source: sensor}` under that key, and then reads `attrs`
(`KeyError` if absent, after the entry was already installed) and copies
the allow-listed attributes in.  Every `KeyError` lands in the fallback
of lines 212-217. -/
def processSensor (combined : Catalog) (st : SensorState) (sensor : String) :
    SensorState :=
  if is_sensor_listed_as_source sensor st.ncvars then st
  else
    match dget? combined sensor with
    | none => fallbackEntry st sensor
    | some info =>
      match info.nc_var_name with
      | none => fallbackEntry st sensor
      | some keyname =>
        match info.attrs with
        | none =>
            fallbackEntry
              { st with ncvars := dset st.ncvars keyname [("source", AVal.str sensor)] }
              sensor
        | some attrs =>
            { st with
              ncvars := dset (dset st.ncvars keyname [("source", AVal.str sensor)])
                keyname (addAllowed [("source", AVal.str sensor)] attrs) }

/-- The whole loop of line 189: fold the per-sensor body over the
manifest in order. -/
def processSensors (combined : Catalog) (st : SensorState) (sensors : List String) :
    SensorState :=
  sensors.foldl (processSensor combined) st

/-- The set of `netcdf_variables` keys the loop body writes for a given
manifest code when the code is not skipped: the catalog record's
`nc_var_name` on a hit, the code itself on a miss, and both when the
record has `nc_var_name` but no `attrs` (the non-atomic partial-hit
path). -/
def entryKeys (combined : Catalog) (sensor : String) : List String :=
  match dget? combined sensor with
  | none => [sensor]
  | some info =>
    match info.nc_var_name with
    | none => [sensor]
    | some keyname =>
      match info.attrs with
      | none => [keyname, sensor]
      | some _ => [keyname]

/-- Keep only the first occurrence of each element (given codes already
seen); used to state the first-occurrence-wins property of duplicate
manifest codes. -/
def dedupFirst : List String → List String → List String
  | _, [] => []
  | seen, a :: rest =>
      if a ∈ seen then dedupFirst seen rest else a :: dedupFirst (a :: seen) rest

/-! ## The per-deployment pipeline of `main` (lines 75-228) -/

/-- The parse outcome of reading one configuration file: the file is
absent, present but unparsable, or parsed into a document. -/
inductive FileContent (α : Type) where
  | missing
  | unparsable
  | parsed : α → FileContent α
deriving DecidableEq, Repr

/-- The `deployment-template.yml` document.  Only the keys the compiler
touches are modelled: `metadata` and `platform` may be absent (the code
tests membership before updating), `netcdf_variables` is declared by the
template schema and is indexed without a guard by the sensor loop.
Other template keys (e.g. `profile_variables`) are carried through
untouched and are not modelled. -/
structure Template where
  metadata : Option (List (String × AVal))
  platform : Option (List (String × AVal))
  netcdf_variables : List (String × List (String × AVal))
deriving DecidableEq, Repr

/-- The `platform.yml` document: its `platform` mapping and its top
level `glider` value.  An absent key raises an uncaught `KeyError` at
lines 123 / 135-145, embedded as `none`. -/
structure PlatformDoc where
  platform : Option (List (String × AVal))
  glider : Option AVal
deriving DecidableEq, Repr

/-- One record of the `instruments.json` array.  Lines 160-162 access
`instrument["nc_var_name"]` and `instrument["attrs"]`; an absent key
raises an uncaught `KeyError`, embedded as `none`. -/
structure Instrument where
  nc_var_name : Option String
  attrs : Option (List (String × AVal))
deriving DecidableEq, Repr

/-- The written `deployment.yml` descriptor (the fields of
`template_data` the compiler builds). -/
structure Output where
  metadata : List (String × AVal)
  platform : List (String × AVal)
  instruments : List (String × List (String × AVal))
  netcdf_variables : List (String × List (String × AVal))
deriving DecidableEq, Repr

/-- The configuration directory of one deployment: the parse outcome of
each input file the compiler reads.  `sensorsTxt` has no unparsable
case (`readlines` cannot fail on an existing file).  `priorOutput` is a
pre-existing `deployment.yml` at the output path: the compiler only ever
opens that path for writing, so the field is never read below. -/
structure ConfigDir where
  template : FileContent Template
  globalattrs : FileContent (List (String × AVal))
  platformFile : FileContent PlatformDoc
  instruments : FileContent (List Instrument)
  sensorDefsRaw : FileContent Catalog
  sensorDefsProfile : FileContent Catalog
  sensorsTxt : Option (List String)
  priorOutput : Option Output
deriving DecidableEq, Repr

/-- The outcome of one iteration of the `for deployment in ...` loop:
`skipped` is a logged error followed by `continue` (the deployment is
aborted, the batch goes on); `crashed` is an uncaught exception escaping
the loop; `done` carries the written descriptor and the warnings logged
by the sensor loop. -/
inductive DepResult where
  | skipped
  | crashed
  | done : Output → List String → DepResult
deriving DecidableEq, Repr

/-- Lines 158-162: build the `instruments` mapping from the
`instruments.json` array; `none` embeds the uncaught `KeyError` on a
record missing `nc_var_name` or `attrs`. -/
def buildInstruments :
    List (String × List (String × AVal)) → List Instrument →
      Option (List (String × List (String × AVal)))
  | acc, [] => some acc
  | acc, i :: rest =>
    match i.nc_var_name, i.attrs with
    | some n, some a => buildInstruments (dset acc n a) rest
    | _, _ => none

/-- Lines 75-228: one iteration of the deployment loop of `main`.

* template (79-88): missing or unparsable YAML → error + `continue`.
* global attributes (95-112): missing or unparsable → error +
  `continue`; otherwise `metadata` is updated key-by-key (or set).
* platform (114-132): `template_data["platform"] = dict()` first wipes
  the template's own `platform` mapping; missing or unparsable file →
  error + `continue`; a `platform.yml` without a `platform` key raises
  an uncaught `KeyError` (only `yaml.YAMLError` is caught).
* derived metadata (134-146): unguarded `KeyError` on the `wmo_id`,
  `wmo_platform_code`, `glider` and `serial_number` accesses.
* instruments (148-162): missing file → error + `continue`, but
  `json.load` is not wrapped, so an unparsable file crashes; so does a
  record without `nc_var_name`/`attrs`.
* sensor defs (164-174): read with no `isfile` guard and no
  try/except, so a missing or unparsable file crashes.
* sensors.txt (176-186): missing file → error + `continue`; lines are
  whitespace-stripped.
* the manifest loop (188-217) and the final write (219-228). -/
def processDeployment (deployment : String) (cfg : ConfigDir) : DepResult :=
  match cfg.template with
  | .missing => .skipped
  | .unparsable => .skipped
  | .parsed tmpl =>
    match cfg.globalattrs with
    | .missing => .skipped
    | .unparsable => .skipped
    | .parsed ga =>
      match cfg.platformFile with
      | .missing => .skipped
      | .unparsable => .skipped
      | .parsed pd =>
        match pd.platform with
        | none => .crashed
        | some p =>
          match dget? p "wmo_id", dget? p "wmo_platform_code",
              pd.glider, dget? p "serial_number" with
          | some w1, some w2, some gl, some sn =>
            match cfg.instruments with
            | .missing => .skipped
            | .unparsable => .crashed
            | .parsed instrs =>
              match buildInstruments [] instrs with
              | none => .crashed
              | some instMap =>
                match cfg.sensorDefsRaw with
                | .missing => .crashed
                | .unparsable => .crashed
                | .parsed rawCat =>
                  match cfg.sensorDefsProfile with
                  | .missing => .crashed
                  | .unparsable => .crashed
                  | .parsed profCat =>
                    match cfg.sensorsTxt with
                    | none => .skipped
                    | some rawLines =>
                      .done
                        { metadata :=
                            dset (dset (dset (dset (dset (dset
                              (match tmpl.metadata with
                               | some m => dupdate m ga
                               | none => ga)
                              "wmo_id" w1)
                              "wmo_platform_code" w2)
                              "deployment" (AVal.str deployment))
                              "deployment_name" (AVal.str deployment))
                              "glider_name" gl)
                              "glider_serial" sn,
                          platform := dupdate [] p,
                          instruments := instMap,
                          netcdf_variables :=
                            (processSensors (combineCatalogs rawCat profCat).1
                              ⟨tmpl.netcdf_variables, []⟩
                              (rawLines.map (fun s => s.trim))).ncvars }
                        (processSensors (combineCatalogs rawCat profCat).1
                          ⟨tmpl.netcdf_variables, []⟩
                          (rawLines.map (fun s => s.trim))).warnings
          | _, _, _, _ => .crashed

/-- The batch loop over deployments (line 48): deployments are processed
in order; a crash propagates out of the loop and the remaining
deployments are never reached.  Returns the per-deployment outcomes that
actually ran and whether the batch died with an uncaught exception. -/
def runBatch : List (String × ConfigDir) → List (String × DepResult) × Bool
  | [] => ([], false)
  | (d, cfg) :: rest =>
    match processDeployment d cfg with
    | .crashed => ([(d, .crashed)], true)
    | r =>
      let other := runBatch rest
      ((d, r) :: other.1, other.2)

/-- Projection used by closed counterexamples: the `platform` mapping of
a completed compilation. -/
def donePlatform : DepResult → Option (List (String × AVal))
  | .done o _ => some o.platform
  | _ => none

/-- Projection used by closed counterexamples: the `metadata` mapping of
a completed compilation. -/
def doneMetadata : DepResult → Option (List (String × AVal))
  | .done o _ => some o.metadata
  | _ => none

/-! ## Concrete configurations used by witnesses and counterexamples -/

/-- A minimal complete configuration directory on which every document
parses and compilation succeeds. -/
def goodCfg : ConfigDir :=
  { template := .parsed ⟨some [], some [], []⟩,
    globalattrs := .parsed [],
    platformFile := .parsed
      ⟨some [("wmo_id", AVal.str "W"), ("wmo_platform_code", AVal.str "C"),
             ("serial_number", AVal.str "S")],
       some (AVal.str "G")⟩,
    instruments := .parsed [],
    sensorDefsRaw := .parsed [],
    sensorDefsProfile := .parsed [],
    sensorsTxt := some [],
    priorOutput := none }

/-- `goodCfg` with `sensor_defs-raw.json` absent. -/
def cfgSdRawMissing : ConfigDir := { goodCfg with sensorDefsRaw := .missing }

/-- `goodCfg` with an unparsable `sensor_defs-sci_profile.json`. -/
def cfgSdProfileBad : ConfigDir := { goodCfg with sensorDefsProfile := .unparsable }

/-- `goodCfg` with an unparsable `instruments.json`. -/
def cfgInstrumentsBad : ConfigDir := { goodCfg with instruments := .unparsable }

/-- Configuration exercising the platform merge: the template's own
`platform` mapping is non-empty (key `colour`) and the platform document
supplies a disjoint key (`depth_rating`). -/
def cfgC2 : ConfigDir :=
  { goodCfg with
    template := .parsed ⟨some [], some [("colour", AVal.str "yellow")], []⟩,
    platformFile := .parsed
      ⟨some [("depth_rating", AVal.str "200m"), ("wmo_id", AVal.str "W"),
             ("wmo_platform_code", AVal.str "C"), ("serial_number", AVal.str "S")],
       some (AVal.str "G")⟩ }

/-- Configuration exercising metadata precedence: keys `wmo_id` and
`project` are present in both the template's `metadata` and the
global-attributes document, and the platform document supplies its own
`wmo_id`. -/
def cfgC6 : ConfigDir :=
  { goodCfg with
    template := .parsed
      ⟨some [("wmo_id", AVal.str "T"), ("project", AVal.str "TP")], some [], []⟩,
    globalattrs := .parsed [("wmo_id", AVal.str "GA"), ("project", AVal.str "GP")] }

/-- Two distinct manifest codes whose records share one `nc_var_name`,
plus the manifest `[A, B, A]`: the entry installed for the first `A` is
overwritten by `B`, so the second `A` is re-processed. -/
def catC9 : Catalog :=
  [("A", ⟨some "x", some []⟩), ("B", ⟨some "x", some []⟩)]

/-- A catalog for the first-occurrence-wins witness: one code, one
distinct output variable name. -/
def catC9w : Catalog := [("A", ⟨some "x", some []⟩)]

/-- A record with `nc_var_name` equal to the sensor code itself and no
`attrs`: the partial-hit write and the fallback write then target the
same key, so only one entry results. -/
def catC10 : Catalog := [("A", ⟨some "A", none⟩)]

/-- A record with `nc_var_name` distinct from the sensor code and no
`attrs` (the partial-hit path of the amended C10). -/
def catC10w : Catalog := [("s", ⟨some "nc", none⟩)]

/-- Catalog for the allow-list witness: one allow-listed and one
unlisted attribute key. -/
def catC4 : Catalog :=
  [("s", ⟨some "nc", some [("units", AVal.str "m"), ("junk", AVal.str "x")]⟩)]

/-- The platform document of `goodCfg` and `cfgC6`. -/
def pdGood : PlatformDoc :=
  ⟨some [("wmo_id", AVal.str "W"), ("wmo_platform_code", AVal.str "C"),
         ("serial_number", AVal.str "S")],
   some (AVal.str "G")⟩

/-- The platform document of `cfgC2`. -/
def pdC2 : PlatformDoc :=
  ⟨some [("depth_rating", AVal.str "200m"), ("wmo_id", AVal.str "W"),
         ("wmo_platform_code", AVal.str "C"), ("serial_number", AVal.str "S")],
   some (AVal.str "G")⟩

/-- The descriptor compiled for deployment `dep1` from `cfgC2`. -/
def outC2 : Output :=
  { metadata := [("wmo_id", AVal.str "W"), ("wmo_platform_code", AVal.str "C"),
      ("deployment", AVal.str "dep1"), ("deployment_name", AVal.str "dep1"),
      ("glider_name", AVal.str "G"), ("glider_serial", AVal.str "S")],
    platform := [("depth_rating", AVal.str "200m"), ("wmo_id", AVal.str "W"),
      ("wmo_platform_code", AVal.str "C"), ("serial_number", AVal.str "S")],
    instruments := [],
    netcdf_variables := [] }

/-- The template of `cfgC6`. -/
def tmplC6 : Template :=
  ⟨some [("wmo_id", AVal.str "T"), ("project", AVal.str "TP")], some [], []⟩

/-- The global-attributes document of `cfgC6`. -/
def gaC6 : List (String × AVal) :=
  [("wmo_id", AVal.str "GA"), ("project", AVal.str "GP")]

/-- The descriptor compiled for deployment `dep1` from `cfgC6`. -/
def outC6 : Output :=
  { metadata := [("wmo_id", AVal.str "W"), ("project", AVal.str "GP"),
      ("wmo_platform_code", AVal.str "C"),
      ("deployment", AVal.str "dep1"), ("deployment_name", AVal.str "dep1"),
      ("glider_name", AVal.str "G"), ("glider_serial", AVal.str "S")],
    platform := [("wmo_id", AVal.str "W"), ("wmo_platform_code", AVal.str "C"),
      ("serial_number", AVal.str "S")],
    instruments := [],
    netcdf_variables := [] }

/-! ## Lemmas about the dictionary embedding -/

@[simp] theorem ofirst_some (v : α) (b : Option α) : ofirst (some v) b = some v := rfl

@[simp] theorem ofirst_none (b : Option α) : ofirst none b = b := rfl

theorem dget?_nil (k : String) : dget? ([] : List (String × α)) k = none := rfl

theorem dget?_cons (k1 : String) (v : α) (rest : List (String × α)) (k : String) :
    dget? ((k1, v) :: rest) k = if k1 = k then some v else dget? rest k := rfl

theorem dget?_dset_self (d : List (String × α)) (k : String) (v : α) :
    dget? (dset d k v) k = some v := by
  induction d with
  | nil => simp [dset, dget?]
  | cons a rest ih =>
      obtain ⟨k1, v1⟩ := a
      by_cases h : k1 = k
      · simp [dset, h, dget?]
      · simp [dset, h, dget?, ih]

theorem dget?_dset_ne (d : List (String × α)) (k1 : String) (v : α) (k : String)
    (h : k1 ≠ k) : dget? (dset d k1 v) k = dget? d k := by
  induction d with
  | nil => simp [dset, dget?, h]
  | cons a rest ih =>
      obtain ⟨k2, v2⟩ := a
      by_cases h2 : k2 = k1
      · subst h2
        simp [dset, dget?, h]
      · simp only [dset, if_neg h2]
        by_cases h3 : k2 = k
        · simp [dget?, h3]
        · simp [dget?, h3, ih]

theorem dget?_eq_none_of_not_mem (d : List (String × α)) (k : String)
    (h : k ∉ d.map Prod.fst) : dget? d k = none := by
  induction d with
  | nil => rfl
  | cons a rest ih =>
      obtain ⟨k1, v1⟩ := a
      simp only [List.map_cons, List.mem_cons] at h
      push_neg at h
      have hne : k1 ≠ k := fun hh => h.1 hh.symm
      simp [dget?, hne, ih h.2]

theorem mem_of_dget?_eq_some {d : List (String × α)} {k : String} {v : α}
    (h : dget? d k = some v) : (k, v) ∈ d := by
  induction d with
  | nil => simp [dget?] at h
  | cons a rest ih =>
      obtain ⟨k1, v1⟩ := a
      by_cases h1 : k1 = k
      · subst h1
        rw [dget?_cons, if_pos rfl] at h
        injection h with hv
        subst hv
        exact List.mem_cons_self _ _
      · rw [dget?_cons, if_neg h1] at h
        exact List.mem_cons_of_mem _ (ih h)

theorem dget?_eq_some_of_mem {d : List (String × α)} {k : String} {v : α}
    (hnd : (d.map Prod.fst).Nodup) (h : (k, v) ∈ d) : dget? d k = some v := by
  induction d with
  | nil => simp at h
  | cons a rest ih =>
      obtain ⟨k1, v1⟩ := a
      simp only [List.map_cons, List.nodup_cons] at hnd
      rcases List.mem_cons.mp h with h1 | h1
      · cases h1
        simp [dget?]
      · have hkin : k ∈ rest.map Prod.fst := List.mem_map.mpr ⟨(k, v), h1, rfl⟩
        have hne : k1 ≠ k := fun he => hnd.1 (he.symm ▸ hkin)
        simp [dget?, hne, ih hnd.2 h1]

theorem mem_keys_dset {d : List (String × α)} {k1 : String} {v : α} {k : String}
    (h : k ∈ (dset d k1 v).map Prod.fst) : k ∈ d.map Prod.fst ∨ k = k1 := by
  induction d with
  | nil => simp [dset] at h; exact Or.inr h
  | cons a rest ih =>
      obtain ⟨k2, v2⟩ := a
      by_cases h2 : k2 = k1
      · simp only [dset, if_pos h2, List.map_cons, List.mem_cons] at h
        rcases h with h | h
        · exact Or.inr h
        · exact Or.inl (by simp [h])
      · simp only [dset, if_neg h2, List.map_cons, List.mem_cons] at h
        rcases h with h | h
        · exact Or.inl (by simp [h])
        · rcases ih h with h3 | h3
          · exact Or.inl (by simp [h3])
          · exact Or.inr h3

theorem nodup_keys_dset {d : List (String × α)} (k : String) (v : α)
    (hnd : (d.map Prod.fst).Nodup) : ((dset d k v).map Prod.fst).Nodup := by
  induction d with
  | nil => simp [dset]
  | cons a rest ih =>
      obtain ⟨k1, v1⟩ := a
      simp only [List.map_cons, List.nodup_cons] at hnd
      by_cases h1 : k1 = k
      · subst h1
        simpa [dset, List.nodup_cons] using hnd
      · simp only [dset, if_neg h1, List.map_cons, List.nodup_cons]
        refine ⟨fun hmem => ?_, ih hnd.2⟩
        rcases mem_keys_dset hmem with h2 | h2
        · exact hnd.1 h2
        · exact h1 h2

theorem dget?_dupdate (d2 : List (String × α)) :
    ∀ (d1 : List (String × α)) (k : String), ((d2.map Prod.fst).Nodup) →
      dget? (dupdate d1 d2) k = ofirst (dget? d2 k) (dget? d1 k) := by
  induction d2 with
  | nil => intro d1 k _; simp [dupdate, dget?]
  | cons a rest ih =>
      intro d1 k hnd
      obtain ⟨k1, v1⟩ := a
      simp only [List.map_cons, List.nodup_cons] at hnd
      have hstep : dupdate d1 ((k1, v1) :: rest) = dupdate (dset d1 k1 v1) rest := rfl
      rw [hstep, ih (dset d1 k1 v1) k hnd.2]
      by_cases h1 : k1 = k
      · subst h1
        have hrest : dget? rest k1 = none :=
          dget?_eq_none_of_not_mem rest k1 hnd.1
        simp [dget?, hrest, dget?_dset_self]
      · simp [dget?, h1, dget?_dset_ne d1 k1 v1 k h1]

theorem mem_dset {d : List (String × α)} {k1 : String} {v1 : α} {k : String} {v : α}
    (h : (k, v) ∈ dset d k1 v1) : (k, v) ∈ d ∨ k = k1 := by
  induction d with
  | nil =>
      simp only [dset, List.mem_singleton, Prod.mk.injEq] at h
      exact Or.inr h.1
  | cons a rest ih =>
      obtain ⟨k2, v2⟩ := a
      by_cases h2 : k2 = k1
      · simp only [dset, if_pos h2] at h
        rcases List.mem_cons.mp h with h3 | h3
        · injection h3 with ha hb
          exact Or.inr ha
        · exact Or.inl (List.mem_cons_of_mem _ h3)
      · simp only [dset, if_neg h2] at h
        rcases List.mem_cons.mp h with h3 | h3
        · exact Or.inl (by simp [h3])
        · rcases ih h3 with h4 | h4
          · exact Or.inl (List.mem_cons_of_mem _ h4)
          · exact Or.inr h4

/-! ## Lemmas about the allow-list filter -/

theorem addAllowed_get : ∀ (attrs init : List (String × AVal)) (k : String),
    ((attrs.map Prod.fst).Nodup) →
    dget? (addAllowed init attrs) k
      = ofirst (if k ∈ allowlist then dget? attrs k else none) (dget? init k)
  | [], init, k, _ => by simp [addAllowed, dget?]
  | (k1, v1) :: rest, init, k, hnd => by
      simp only [List.map_cons, List.nodup_cons] at hnd
      have hstep : addAllowed init ((k1, v1) :: rest)
          = addAllowed (if k1 ∈ allowlist then dset init k1 v1 else init) rest := rfl
      rw [hstep]
      by_cases h1 : k1 ∈ allowlist
      · rw [if_pos h1, addAllowed_get rest (dset init k1 v1) k hnd.2]
        by_cases hk : k1 = k
        · subst hk
          have hrest : dget? rest k1 = none := dget?_eq_none_of_not_mem rest k1 hnd.1
          simp [dget?, h1, hrest, dget?_dset_self]
        · simp [dget?, hk, dget?_dset_ne init k1 v1 k hk]
      · rw [if_neg h1, addAllowed_get rest init k hnd.2]
        by_cases hk : k1 = k
        · subst hk
          simp [dget?, h1]
        · simp [dget?, hk]

theorem addAllowed_not_allowed : ∀ (attrs init : List (String × AVal)) (k : String),
    k ∉ allowlist → dget? (addAllowed init attrs) k = dget? init k
  | [], _, _, _ => rfl
  | (k1, v1) :: rest, init, k, h => by
      have hstep : addAllowed init ((k1, v1) :: rest)
          = addAllowed (if k1 ∈ allowlist then dset init k1 v1 else init) rest := rfl
      rw [hstep]
      by_cases h1 : k1 ∈ allowlist
      · rw [if_pos h1, addAllowed_not_allowed rest (dset init k1 v1) k h]
        have hne : k1 ≠ k := fun he => h (he ▸ h1)
        exact dget?_dset_ne init k1 v1 k hne
      · rw [if_neg h1]
        exact addAllowed_not_allowed rest init k h

theorem addAllowed_mem : ∀ (attrs init : List (String × AVal)) (k : String) (v : AVal),
    (k, v) ∈ addAllowed init attrs → (k, v) ∈ init ∨ k ∈ allowlist
  | [], _, _, _, h => Or.inl h
  | (k1, v1) :: rest, init, k, v, h => by
      have hstep : addAllowed init ((k1, v1) :: rest)
          = addAllowed (if k1 ∈ allowlist then dset init k1 v1 else init) rest := rfl
      rw [hstep] at h
      by_cases h1 : k1 ∈ allowlist
      · rw [if_pos h1] at h
        rcases addAllowed_mem rest (dset init k1 v1) k v h with h2 | h2
        · rcases mem_dset h2 with h3 | h3
          · exact Or.inl h3
          · exact Or.inr (h3 ▸ h1)
        · exact Or.inr h2
      · rw [if_neg h1] at h
        exact addAllowed_mem rest init k v h

/-! ## Lemmas about the sensor resolver and the loop body -/

theorem isListed_iff {nv : List (String × List (String × AVal))} {s : String} :
    is_sensor_listed_as_source s nv = true
      ↔ ∃ p ∈ nv, dget? p.2 "source" = some (AVal.str s) := by
  simp [is_sensor_listed_as_source, List.any_eq_true]

theorem isListed_of_entry {nv : List (String × List (String × AVal))} {k : String}
    {e : List (String × AVal)} {s : String}
    (h1 : dget? nv k = some e) (h2 : dget? e "source" = some (AVal.str s)) :
    is_sensor_listed_as_source s nv = true :=
  isListed_iff.mpr ⟨(k, e), mem_of_dget?_eq_some h1, h2⟩

theorem processSensor_skip {combined : Catalog} {st : SensorState} {sensor : String}
    (h : is_sensor_listed_as_source sensor st.ncvars = true) :
    processSensor combined st sensor = st := by
  simp [processSensor, h]

theorem source_not_in_allowlist : "source" ∉ allowlist := by decide

/-! Branch equations of `processSensor` and `entryKeys`, one per path of
the `try` block. -/

theorem processSensor_eq_miss {combined : Catalog} {st : SensorState} {sensor : String}
    (hl : ¬ is_sensor_listed_as_source sensor st.ncvars = true)
    (hc : dget? combined sensor = none) :
    processSensor combined st sensor = fallbackEntry st sensor := by
  simp only [processSensor, if_neg hl, hc]

theorem processSensor_eq_noname {combined : Catalog} {st : SensorState} {sensor : String}
    {info : SensorDef}
    (hl : ¬ is_sensor_listed_as_source sensor st.ncvars = true)
    (hc : dget? combined sensor = some info) (hn : info.nc_var_name = none) :
    processSensor combined st sensor = fallbackEntry st sensor := by
  simp only [processSensor, if_neg hl, hc, hn]

theorem processSensor_eq_partialHit {combined : Catalog} {st : SensorState} {sensor : String}
    {info : SensorDef} {keyname : String}
    (hl : ¬ is_sensor_listed_as_source sensor st.ncvars = true)
    (hc : dget? combined sensor = some info) (hn : info.nc_var_name = some keyname)
    (ha : info.attrs = none) :
    processSensor combined st sensor
      = fallbackEntry
          { st with ncvars := dset st.ncvars keyname [("source", AVal.str sensor)] }
          sensor := by
  simp only [processSensor, if_neg hl, hc, hn, ha]

theorem processSensor_eq_hit {combined : Catalog} {st : SensorState} {sensor : String}
    {info : SensorDef} {keyname : String} {attrs : List (String × AVal)}
    (hl : ¬ is_sensor_listed_as_source sensor st.ncvars = true)
    (hc : dget? combined sensor = some info) (hn : info.nc_var_name = some keyname)
    (ha : info.attrs = some attrs) :
    processSensor combined st sensor
      = { st with
          ncvars := dset (dset st.ncvars keyname [("source", AVal.str sensor)])
            keyname (addAllowed [("source", AVal.str sensor)] attrs) } := by
  simp only [processSensor, if_neg hl, hc, hn, ha]

theorem entryKeys_miss {combined : Catalog} {sensor : String}
    (hc : dget? combined sensor = none) : entryKeys combined sensor = [sensor] := by
  simp only [entryKeys, hc]

theorem entryKeys_noname {combined : Catalog} {sensor : String} {info : SensorDef}
    (hc : dget? combined sensor = some info) (hn : info.nc_var_name = none) :
    entryKeys combined sensor = [sensor] := by
  simp only [entryKeys, hc, hn]

theorem entryKeys_partialHit {combined : Catalog} {sensor : String} {info : SensorDef}
    {keyname : String}
    (hc : dget? combined sensor = some info) (hn : info.nc_var_name = some keyname)
    (ha : info.attrs = none) : entryKeys combined sensor = [keyname, sensor] := by
  simp only [entryKeys, hc, hn, ha]

theorem entryKeys_hit {combined : Catalog} {sensor : String} {info : SensorDef}
    {keyname : String} {attrs : List (String × AVal)}
    (hc : dget? combined sensor = some info) (hn : info.nc_var_name = some keyname)
    (ha : info.attrs = some attrs) : entryKeys combined sensor = [keyname] := by
  simp only [entryKeys, hc, hn, ha]

theorem isListed_after_processSensor (combined : Catalog) (st : SensorState) (c : String) :
    is_sensor_listed_as_source c (processSensor combined st c).ncvars = true := by
  by_cases hl : is_sensor_listed_as_source c st.ncvars = true
  · rw [processSensor_skip hl]
    exact hl
  · cases hc : dget? combined c with
    | none =>
        rw [processSensor_eq_miss hl hc]
        exact isListed_of_entry (dget?_dset_self st.ncvars c _) rfl
    | some info =>
        cases hn : info.nc_var_name with
        | none =>
            rw [processSensor_eq_noname hl hc hn]
            exact isListed_of_entry (dget?_dset_self st.ncvars c _) rfl
        | some kn =>
            cases ha : info.attrs with
            | none =>
                rw [processSensor_eq_partialHit hl hc hn ha]
                exact isListed_of_entry (dget?_dset_self _ c _) rfl
            | some attrs =>
                rw [processSensor_eq_hit hl hc hn ha]
                refine isListed_of_entry (dget?_dset_self _ kn _) ?_
                rw [addAllowed_not_allowed attrs _ "source" source_not_in_allowlist]
                rfl

theorem processSensor_frame (combined : Catalog) (st : SensorState) (c k : String)
    (hk : k ∉ entryKeys combined c) :
    dget? (processSensor combined st c).ncvars k = dget? st.ncvars k := by
  by_cases hl : is_sensor_listed_as_source c st.ncvars = true
  · rw [processSensor_skip hl]
  · cases hc : dget? combined c with
    | none =>
        rw [entryKeys_miss hc] at hk
        simp only [List.mem_singleton] at hk
        rw [processSensor_eq_miss hl hc]
        exact dget?_dset_ne st.ncvars c _ k (Ne.symm hk)
    | some info =>
        cases hn : info.nc_var_name with
        | none =>
            rw [entryKeys_noname hc hn] at hk
            simp only [List.mem_singleton] at hk
            rw [processSensor_eq_noname hl hc hn]
            exact dget?_dset_ne st.ncvars c _ k (Ne.symm hk)
        | some kn =>
            cases ha : info.attrs with
            | none =>
                rw [entryKeys_partialHit hc hn ha] at hk
                simp only [List.mem_cons, List.mem_singleton] at hk
                push_neg at hk
                rw [processSensor_eq_partialHit hl hc hn ha]
                show dget? (dset (dset st.ncvars kn _) c _) k = dget? st.ncvars k
                rw [dget?_dset_ne _ c _ k (Ne.symm hk.2.1),
                  dget?_dset_ne _ kn _ k (Ne.symm hk.1)]
            | some attrs =>
                rw [entryKeys_hit hc hn ha] at hk
                simp only [List.mem_singleton] at hk
                rw [processSensor_eq_hit hl hc hn ha]
                show dget? (dset (dset st.ncvars kn _) kn _) k = dget? st.ncvars k
                rw [dget?_dset_ne _ kn _ k (Ne.symm hk),
                  dget?_dset_ne _ kn _ k (Ne.symm hk)]

theorem processSensor_writes (combined : Catalog) (st : SensorState) (c k : String)
    (e : List (String × AVal))
    (h : dget? (processSensor combined st c).ncvars k = some e) :
    dget? st.ncvars k = some e
      ∨ (k ∈ entryKeys combined c ∧ dget? e "source" = some (AVal.str c)) := by
  by_cases hl : is_sensor_listed_as_source c st.ncvars = true
  · rw [processSensor_skip hl] at h
    exact Or.inl h
  · cases hc : dget? combined c with
    | none =>
        rw [processSensor_eq_miss hl hc] at h
        rw [entryKeys_miss hc]
        by_cases hkc : c = k
        · subst hkc
          rw [show (fallbackEntry st c).ncvars
              = dset st.ncvars c [("source", AVal.str c)] from rfl,
            dget?_dset_self] at h
          injection h with he
          exact Or.inr ⟨List.mem_singleton.mpr rfl, by rw [← he]; rfl⟩
        · rw [show (fallbackEntry st c).ncvars
              = dset st.ncvars c [("source", AVal.str c)] from rfl,
            dget?_dset_ne _ c _ k hkc] at h
          exact Or.inl h
    | some info =>
        cases hn : info.nc_var_name with
        | none =>
            rw [processSensor_eq_noname hl hc hn] at h
            rw [entryKeys_noname hc hn]
            by_cases hkc : c = k
            · subst hkc
              rw [show (fallbackEntry st c).ncvars
                  = dset st.ncvars c [("source", AVal.str c)] from rfl,
                dget?_dset_self] at h
              injection h with he
              exact Or.inr ⟨List.mem_singleton.mpr rfl, by rw [← he]; rfl⟩
            · rw [show (fallbackEntry st c).ncvars
                  = dset st.ncvars c [("source", AVal.str c)] from rfl,
                dget?_dset_ne _ c _ k hkc] at h
              exact Or.inl h
        | some kn =>
            cases ha : info.attrs with
            | none =>
                rw [processSensor_eq_partialHit hl hc hn ha] at h
                rw [entryKeys_partialHit hc hn ha]
                rw [show (fallbackEntry
                      { st with ncvars := dset st.ncvars kn [("source", AVal.str c)] }
                      c).ncvars
                    = dset (dset st.ncvars kn [("source", AVal.str c)]) c
                        [("source", AVal.str c)] from rfl] at h
                by_cases hkc : c = k
                · subst hkc
                  rw [dget?_dset_self] at h
                  injection h with he
                  exact Or.inr ⟨by simp, by rw [← he]; rfl⟩
                · rw [dget?_dset_ne _ c _ k hkc] at h
                  by_cases hkn : kn = k
                  · subst hkn
                    rw [dget?_dset_self] at h
                    injection h with he
                    exact Or.inr ⟨by simp, by rw [← he]; rfl⟩
                  · rw [dget?_dset_ne _ kn _ k hkn] at h
                    exact Or.inl h
            | some attrs =>
                rw [processSensor_eq_hit hl hc hn ha] at h
                rw [entryKeys_hit hc hn ha]
                rw [show ({ st with
                      ncvars := dset (dset st.ncvars kn [("source", AVal.str c)]) kn
                        (addAllowed [("source", AVal.str c)] attrs) } : SensorState).ncvars
                    = dset (dset st.ncvars kn [("source", AVal.str c)]) kn
                        (addAllowed [("source", AVal.str c)] attrs) from rfl] at h
                by_cases hkn : kn = k
                · subst hkn
                  rw [dget?_dset_self] at h
                  injection h with he
                  refine Or.inr ⟨by simp, ?_⟩
                  rw [← he, addAllowed_not_allowed attrs _ "source" source_not_in_allowlist]
                  rfl
                · rw [dget?_dset_ne _ kn _ k hkn, dget?_dset_ne _ kn _ k hkn] at h
                  exact Or.inl h

theorem processSensor_nodup (combined : Catalog) (st : SensorState) (c : String)
    (h : (st.ncvars.map Prod.fst).Nodup) :
    ((processSensor combined st c).ncvars.map Prod.fst).Nodup := by
  by_cases hl : is_sensor_listed_as_source c st.ncvars = true
  · rw [processSensor_skip hl]
    exact h
  · cases hc : dget? combined c with
    | none =>
        rw [processSensor_eq_miss hl hc]
        exact nodup_keys_dset c _ h
    | some info =>
        cases hn : info.nc_var_name with
        | none =>
            rw [processSensor_eq_noname hl hc hn]
            exact nodup_keys_dset c _ h
        | some kn =>
            cases ha : info.attrs with
            | none =>
                rw [processSensor_eq_partialHit hl hc hn ha]
                exact nodup_keys_dset c _ (nodup_keys_dset kn _ h)
            | some attrs =>
                rw [processSensor_eq_hit hl hc hn ha]
                exact nodup_keys_dset kn _ (nodup_keys_dset kn _ h)

theorem ofirst_none_right (a : Option α) : ofirst a none = a := by
  cases a <;> rfl

/-- The induction behind first-occurrence-wins: provided the entry keys
of the manifest codes collide neither with the initial mapping's keys
nor with each other, processing the remaining codes gives the same state
as processing them with already-seen duplicates removed.  The last two
`∀`-hypotheses are the loop invariant: every present entry is either an
untouched initial entry or was installed by a processed code under that
code's entry keys with the code as its `source`, and every processed
code is currently listed as a source. -/
theorem processSensors_dedup_aux (combined : Catalog) (st0 : SensorState)
    (S : List String)
    (hS0 : ∀ c ∈ S, ∀ k ∈ entryKeys combined c, k ∉ st0.ncvars.map Prod.fst)
    (hS1 : ∀ c ∈ S, ∀ d ∈ S, c ≠ d → ∀ k ∈ entryKeys combined c, k ∉ entryKeys combined d) :
    ∀ (rest : List String) (processed : List String) (st : SensorState),
      (∀ c ∈ processed, c ∈ S) → (∀ c ∈ rest, c ∈ S) →
      ((st.ncvars.map Prod.fst).Nodup) →
      (∀ k e, dget? st.ncvars k = some e →
        dget? st0.ncvars k = some e
          ∨ ∃ c ∈ processed, k ∈ entryKeys combined c
              ∧ dget? e "source" = some (AVal.str c)) →
      (∀ c ∈ processed, is_sensor_listed_as_source c st.ncvars = true) →
      processSensors combined st rest = processSensors combined st (dedupFirst processed rest) := by
  intro rest
  induction rest with
  | nil => intro processed st _ _ _ _ _; rfl
  | cons d rest ih =>
      intro processed st hps hrs hnd hinv hlist
      by_cases hmem : d ∈ processed
      · have hskip : processSensor combined st d = st := processSensor_skip (hlist d hmem)
        have h1 : processSensors combined st (d :: rest) = processSensors combined st rest := by
          show processSensors combined (processSensor combined st d) rest = _
          rw [hskip]
        have h2 : dedupFirst processed (d :: rest) = dedupFirst processed rest := by
          simp [dedupFirst, hmem]
        rw [h1, h2]
        exact ih processed st hps (fun c hc => hrs c (List.mem_cons_of_mem _ hc)) hnd hinv hlist
      · have hdS : d ∈ S := hrs d (List.mem_cons_self _ _)
        have h2 : dedupFirst processed (d :: rest) = d :: dedupFirst (d :: processed) rest := by
          simp [dedupFirst, hmem]
        rw [h2]
        have hL : processSensors combined st (d :: rest)
            = processSensors combined (processSensor combined st d) rest := rfl
        have hR : processSensors combined st (d :: dedupFirst (d :: processed) rest)
            = processSensors combined (processSensor combined st d)
                (dedupFirst (d :: processed) rest) := rfl
        rw [hL, hR]
        apply ih (d :: processed) (processSensor combined st d)
        · intro c hc
          rcases List.mem_cons.mp hc with h | h
          · exact h ▸ hdS
          · exact hps c h
        · intro c hc
          exact hrs c (List.mem_cons_of_mem _ hc)
        · exact processSensor_nodup combined st d hnd
        · intro k e hke
          rcases processSensor_writes combined st d k e hke with h | h
          · rcases hinv k e h with h3 | ⟨c, hcp, hck, hcs⟩
            · exact Or.inl h3
            · exact Or.inr ⟨c, List.mem_cons_of_mem _ hcp, hck, hcs⟩
          · exact Or.inr ⟨d, List.mem_cons_self _ _, h.1, h.2⟩
        · intro c hc
          rcases List.mem_cons.mp hc with h | h
          · exact h ▸ isListed_after_processSensor combined st d
          · have hl := hlist c h
            rcases isListed_iff.mp hl with ⟨⟨k, e⟩, hpe, hse⟩
            have hke : dget? st.ncvars k = some e := dget?_eq_some_of_mem hnd hpe
            have hkd : k ∉ entryKeys combined d := by
              rcases hinv k e hke with h3 | ⟨c2, hc2p, hc2k, hc2s⟩
              · have hk0 : k ∈ st0.ncvars.map Prod.fst :=
                  List.mem_map.mpr ⟨(k, e), mem_of_dget?_eq_some h3, rfl⟩
                exact fun hkek => hS0 d hdS k hkek hk0
              · have he2 : AVal.str c2 = AVal.str c := by
                  have h4 := hc2s.symm.trans hse
                  injection h4
                have hc2c : c2 = c := by injection he2
                subst hc2c
                have hcd : c2 ≠ d := fun hcd => hmem (hcd ▸ h)
                exact fun hkek => hS1 c2 (hps c2 h) d hdS hcd k hc2k hkek
            have hsurv : dget? (processSensor combined st d).ncvars k = some e := by
              rw [processSensor_frame combined st d k hkd]
              exact hke
            exact isListed_of_entry hsurv hse

/-! ## Claim theorems -/

/-- C3: a manifest sensor code that is already referenced as the
`source` value of some entry of `netcdf_variables` — as decided by the
resolver `is_sensor_listed_as_source`, true iff some value of the
mapping has a `source` field equal to the code — is skipped: processing
it leaves the whole state, in particular `netcdf_variables`, completely
unchanged (no entry added, removed or modified, no warning). -/
theorem c3_already_listed_skip (combined : Catalog) (st : SensorState) (sensor : String)
    (h : ∃ p ∈ st.ncvars, dget? p.2 "source" = some (AVal.str sensor)) :
    is_sensor_listed_as_source sensor st.ncvars = true
    ∧ processSensor combined st sensor = st :=
  ⟨isListed_iff.mpr h, processSensor_skip (isListed_iff.mpr h)⟩

/-- Witness for C3 at a concrete state whose `temperature` entry lists
`sci_water_temp` as its source. -/
theorem c3_already_listed_skip_witness :
    is_sensor_listed_as_source "sci_water_temp"
        [("temperature", [("source", AVal.str "sci_water_temp")])] = true
    ∧ processSensor [] ⟨[("temperature", [("source", AVal.str "sci_water_temp")])], []⟩
        "sci_water_temp"
      = ⟨[("temperature", [("source", AVal.str "sci_water_temp")])], []⟩ :=
  c3_already_listed_skip []
    ⟨[("temperature", [("source", AVal.str "sci_water_temp")])], []⟩ "sci_water_temp"
    ⟨("temperature", [("source", AVal.str "sci_water_temp")]), by decide, by decide⟩

/-- C4: on a catalog hit (record with `nc_var_name` and `attrs`), the
new `netcdf_variables` entry keyed by the record's `nc_var_name` is
exactly `source = sensor` plus the allow-listed attributes: looking up
any key in the entry gives the manifest code at `source`, the record's
attribute value at allow-listed keys, and nothing at any other key; no
key outside `{source} ∪ allowlist` ever appears in the entry. -/
theorem c4_allowlist_filter (combined : Catalog) (st : SensorState)
    (sensor keyname : String) (info : SensorDef) (attrs : List (String × AVal))
    (hl : ¬ is_sensor_listed_as_source sensor st.ncvars = true)
    (hc : dget? combined sensor = some info)
    (hn : info.nc_var_name = some keyname)
    (ha : info.attrs = some attrs)
    (hnd : (attrs.map Prod.fst).Nodup) :
    dget? (processSensor combined st sensor).ncvars keyname
      = some (addAllowed [("source", AVal.str sensor)] attrs)
    ∧ (∀ k, dget? (addAllowed [("source", AVal.str sensor)] attrs) k
        = if k = "source" then some (AVal.str sensor)
          else if k ∈ allowlist then dget? attrs k else none)
    ∧ (∀ k v, (k, v) ∈ addAllowed [("source", AVal.str sensor)] attrs →
        k = "source" ∨ k ∈ allowlist) := by
  refine ⟨?_, ?_, ?_⟩
  · rw [processSensor_eq_hit hl hc hn ha]
    show dget? (dset (dset st.ncvars keyname [("source", AVal.str sensor)]) keyname
        (addAllowed [("source", AVal.str sensor)] attrs)) keyname
      = some (addAllowed [("source", AVal.str sensor)] attrs)
    exact dget?_dset_self _ _ _
  · intro k
    rw [addAllowed_get attrs [("source", AVal.str sensor)] k hnd]
    by_cases hks : k = "source"
    · subst hks
      simp [dget?, if_neg source_not_in_allowlist]
    · have hsk : ("source" : String) ≠ k := fun he => hks he.symm
      by_cases hka : k ∈ allowlist
      · simp [dget?, hks, hka, hsk, ofirst_none_right]
      · simp [dget?, hks, hka, hsk]
  · intro k v hm
    rcases addAllowed_mem attrs _ k v hm with h2 | h2
    · exact Or.inl (congrArg Prod.fst (List.mem_singleton.mp h2))
    · exact Or.inr h2

/-- Witness for C4 at a record with one allow-listed (`units`) and one
unlisted (`junk`) attribute key. -/
theorem c4_allowlist_filter_witness :
    dget? (processSensor catC4 ⟨[], []⟩ "s").ncvars "nc"
      = some (addAllowed [("source", AVal.str "s")]
          [("units", AVal.str "m"), ("junk", AVal.str "x")]) :=
  (c4_allowlist_filter catC4 ⟨[], []⟩ "s" "nc"
    ⟨some "nc", some [("units", AVal.str "m"), ("junk", AVal.str "x")]⟩
    [("units", AVal.str "m"), ("junk", AVal.str "x")]
    (by decide) (by decide) rfl rfl (by decide)).1

/-- C5: a manifest code that is not yet referenced as a `source` and is
absent from the combined catalog gets a minimal entry keyed by the code
itself whose only field is `source` (equal to the code), exactly one
warning is recorded for it, and the loop continues with the remaining
manifest codes. -/
theorem c5_missing_definition (combined : Catalog) (st : SensorState) (sensor : String)
    (hl : ¬ is_sensor_listed_as_source sensor st.ncvars = true)
    (hc : dget? combined sensor = none) :
    (processSensor combined st sensor).ncvars
      = dset st.ncvars sensor [("source", AVal.str sensor)]
    ∧ (processSensor combined st sensor).warnings
      = st.warnings ++ [missingDefWarning sensor]
    ∧ (∀ rest, processSensors combined st (sensor :: rest)
        = processSensors combined (processSensor combined st sensor) rest) := by
  refine ⟨?_, ?_, fun rest => rfl⟩
  · rw [processSensor_eq_miss hl hc]
    rfl
  · rw [processSensor_eq_miss hl hc]
    rfl

/-- Witness for C5 at the empty catalog and the code `m_depth`. -/
theorem c5_missing_definition_witness :
    (processSensor [] ⟨[], []⟩ "m_depth").ncvars
      = dset [] "m_depth" [("source", AVal.str "m_depth")]
    ∧ (processSensor [] ⟨[], []⟩ "m_depth").warnings
      = [] ++ [missingDefWarning "m_depth"] :=
  ⟨(c5_missing_definition [] ⟨[], []⟩ "m_depth" (by decide) rfl).1,
   (c5_missing_definition [] ⟨[], []⟩ "m_depth" (by decide) rfl).2.1⟩

/-- C7: after `combined_data = sdraw_data.copy(); combined_data.update(
sdprofile_data)`, the two input catalogs are unchanged, a code present
in the profile catalog looks up to exactly the profile record, and a
code absent from the profile catalog looks up to its raw-catalog
result.  (The parsed profile catalog has unique keys, hence the `Nodup`
hypothesis.) -/
theorem c7_catalog_overlay (raw prof : Catalog)
    (hnd : (prof.map Prod.fst).Nodup) :
    (combineCatalogs raw prof).2.1 = raw
    ∧ (combineCatalogs raw prof).2.2 = prof
    ∧ (∀ code r, dget? prof code = some r →
        dget? (combineCatalogs raw prof).1 code = some r)
    ∧ (∀ code, dget? prof code = none →
        dget? (combineCatalogs raw prof).1 code = dget? raw code) := by
  refine ⟨rfl, rfl, ?_, ?_⟩
  · intro code r hr
    show dget? (dupdate (dcopy raw) prof) code = some r
    rw [dget?_dupdate prof (dcopy raw) code hnd, hr, ofirst_some]
  · intro code hr
    show dget? (dupdate (dcopy raw) prof) code = dget? raw code
    rw [dget?_dupdate prof (dcopy raw) code hnd, hr, ofirst_none]
    rfl

/-- Witness for C7 at two one-record catalogs sharing the code `a`. -/
theorem c7_catalog_overlay_witness :
    dget? (combineCatalogs [("a", ⟨some "raw_var", none⟩)]
        [("a", ⟨some "profile_var", none⟩)]).1 "a"
      = some ⟨some "profile_var", none⟩ :=
  (c7_catalog_overlay [("a", ⟨some "raw_var", none⟩)] [("a", ⟨some "profile_var", none⟩)]
    (by decide)).2.2.1 "a" ⟨some "profile_var", none⟩ (by decide)

/-- C9 counterexample: with records `A ↦ (x, {})` and `B ↦ (x, {})` and
the manifest `[A, B, A]`, processing `B` overwrites the entry `x` that
recorded `source = A`, so the second occurrence of `A` is re-processed
(it modifies the entry again); the final state differs from that of the
duplicate-free manifest `[A, B]`, refuting the claim that the output
always equals that of the manifest with later duplicates deleted. -/
theorem c9_counterexample :
    processSensors catC9 ⟨[], []⟩ ["A", "B", "A"]
      ≠ processSensors catC9 ⟨[], []⟩ (dedupFirst [] ["A", "B", "A"]) := by decide

/-- C9 (amended): duplicate manifest codes are resolved
first-occurrence-wins provided the entry keys written for the manifest
codes collide neither with the keys already present in
`netcdf_variables` nor, across distinct codes, with each other: then
every occurrence after the first is skipped and the output equals that
of the manifest with later duplicates deleted.  (Without the
no-collision proviso an intervening code can overwrite the entry whose
`source` recorded the first occurrence, and a later duplicate is then
re-processed, as the counterexample shows.) -/
theorem c9_first_occurrence_wins (combined : Catalog) (st0 : SensorState)
    (manifest : List String)
    (hnd : (st0.ncvars.map Prod.fst).Nodup)
    (h0 : ∀ c ∈ manifest, ∀ k ∈ entryKeys combined c, k ∉ st0.ncvars.map Prod.fst)
    (h1 : ∀ c ∈ manifest, ∀ d ∈ manifest, c ≠ d →
      ∀ k ∈ entryKeys combined c, k ∉ entryKeys combined d) :
    processSensors combined st0 manifest
      = processSensors combined st0 (dedupFirst [] manifest) :=
  processSensors_dedup_aux combined st0 manifest h0 h1 manifest [] st0
    (fun c hc => absurd hc (List.not_mem_nil c))
    (fun _ hc => hc)
    hnd
    (fun _ _ hke => Or.inl hke)
    (fun c hc => absurd hc (List.not_mem_nil c))

/-- Witness for C9 at the manifest `[A, A]` over a catalog mapping `A`
to output variable `x`, starting from a template with an unrelated
pre-declared entry. -/
theorem c9_first_occurrence_wins_witness :
    processSensors catC9w ⟨[("t", [("source", AVal.str "z")])], []⟩ ["A", "A"]
      = processSensors catC9w ⟨[("t", [("source", AVal.str "z")])], []⟩
          (dedupFirst [] ["A", "A"]) :=
  c9_first_occurrence_wins catC9w ⟨[("t", [("source", AVal.str "z")])], []⟩ ["A", "A"]
    (by decide) (by decide) (by decide)

/-- C10 counterexample: the claim predicts that a record with
`nc_var_name` but no `attrs` always yields *two* entries with the same
`source`.  When the record's `nc_var_name` equals the sensor code itself
(catalog `A ↦ (nc_var_name = A, no attrs)`), the partial-hit write and
the fallback write target the same key, and the output holds a single
entry, not two. -/
theorem c10_counterexample :
    processSensor catC10 ⟨[], []⟩ "A"
      = ⟨[("A", [("source", AVal.str "A")])], [missingDefWarning "A"]⟩
    ∧ (processSensor catC10 ⟨[], []⟩ "A").ncvars.length = 1 := by
  exact ⟨by decide, by decide⟩

/-- C10 (amended): for a manifest code whose combined-catalog record has
`nc_var_name` but no `attrs` mapping, and whose `nc_var_name` differs
from the code itself, the loop body is not atomic: it first installs the
entry keyed by `nc_var_name` with `source` set, then the failed `attrs`
access triggers the fallback, which installs a second entry keyed by the
code with `source` set and logs one missing-definition warning — two
entries with the same `source` for one manifest code.  (When
`nc_var_name` equals the code the two writes collapse into one entry,
see the counterexample.) -/
theorem c10_partial_hit (combined : Catalog) (st : SensorState)
    (sensor keyname : String) (info : SensorDef)
    (hl : ¬ is_sensor_listed_as_source sensor st.ncvars = true)
    (hc : dget? combined sensor = some info)
    (hn : info.nc_var_name = some keyname)
    (ha : info.attrs = none)
    (hne : keyname ≠ sensor) :
    dget? (processSensor combined st sensor).ncvars keyname
      = some [("source", AVal.str sensor)]
    ∧ dget? (processSensor combined st sensor).ncvars sensor
      = some [("source", AVal.str sensor)]
    ∧ (processSensor combined st sensor).warnings
      = st.warnings ++ [missingDefWarning sensor] := by
  rw [processSensor_eq_partialHit hl hc hn ha]
  refine ⟨?_, ?_, rfl⟩
  · show dget? (dset (dset st.ncvars keyname [("source", AVal.str sensor)]) sensor
        [("source", AVal.str sensor)]) keyname = some [("source", AVal.str sensor)]
    rw [dget?_dset_ne _ sensor _ keyname (Ne.symm hne)]
    exact dget?_dset_self _ _ _
  · show dget? (dset (dset st.ncvars keyname [("source", AVal.str sensor)]) sensor
        [("source", AVal.str sensor)]) sensor = some [("source", AVal.str sensor)]
    exact dget?_dset_self _ _ _

/-- Witness for C10 at the record `s ↦ (nc_var_name = nc, no attrs)`. -/
theorem c10_partial_hit_witness :
    dget? (processSensor catC10w ⟨[], []⟩ "s").ncvars "nc"
      = some [("source", AVal.str "s")]
    ∧ dget? (processSensor catC10w ⟨[], []⟩ "s").ncvars "s"
      = some [("source", AVal.str "s")]
    ∧ (processSensor catC10w ⟨[], []⟩ "s").warnings
      = [] ++ [missingDefWarning "s"] :=
  c10_partial_hit catC10w ⟨[], []⟩ "s" "nc" ⟨some "nc", none⟩
    (by decide) (by decide) rfl rfl (by decide)

/-- C1 (code bug): the claim says a missing or unparsable required
document makes the compiler log an error and abort only the current
deployment, the batch continuing — in particular for
`sensor_defs-raw.json`, `sensor_defs-sci_profile.json` and
`instruments.json`.  In the code the sensor-definition files are opened
with no existence check and no try/except (lines 169-172), and
`json.load` of `instruments.json` is unguarded (line 152), so the
exception escapes the per-deployment loop: here a batch whose first
deployment lacks `sensor_defs-raw.json` crashes and its second, fully
valid deployment is never processed (while that second deployment alone
compiles without crashing). -/
theorem c1_sensor_defs_crash_batch :
    processDeployment "d1" cfgSdRawMissing = DepResult.crashed
    ∧ processDeployment "d1" cfgSdProfileBad = DepResult.crashed
    ∧ processDeployment "d1" cfgInstrumentsBad = DepResult.crashed
    ∧ runBatch [("d1", cfgSdRawMissing), ("d2", goodCfg)]
        = ([("d1", DepResult.crashed)], true)
    ∧ (runBatch [("d2", goodCfg)]).2 = false :=
  ⟨rfl, rfl, rfl, rfl, rfl⟩

/-- C8: compilation is a pure function of the deployment identifier and
the parsed input documents; in particular a pre-existing
`deployment.yml` at the output path (the `priorOutput` field, which the
compiler only ever opens for writing) has no influence: two
configuration directories that agree on every input file produce
identical descriptors and warnings whatever descriptor was previously at
the output path. -/
theorem c8_deterministic_no_prior_influence (dep : String)
    (t : FileContent Template) (g : FileContent (List (String × AVal)))
    (pf : FileContent PlatformDoc) (ins : FileContent (List Instrument))
    (sdr sdp : FileContent Catalog) (sens : Option (List String))
    (po1 po2 : Option Output) :
    processDeployment dep ⟨t, g, pf, ins, sdr, sdp, sens, po1⟩
      = processDeployment dep ⟨t, g, pf, ins, sdr, sdp, sens, po2⟩ := rfl

/-- Evaluation of one deployment iteration on a configuration whose
documents all parse and whose platform document carries the accessed
keys: the compiler reaches the final write and the merged descriptor is
as shown. -/
theorem processDeployment_done_eq (dep : String) (tmpl : Template)
    (ga : List (String × AVal)) (pd : PlatformDoc) (p : List (String × AVal))
    (w1 w2 gl sn : AVal) (instrs : List Instrument)
    (instMap : List (String × List (String × AVal)))
    (rawCat profCat : Catalog) (rawLines : List String) (po : Option Output)
    (hpp : pd.platform = some p)
    (hw1 : dget? p "wmo_id" = some w1)
    (hw2 : dget? p "wmo_platform_code" = some w2)
    (hgl : pd.glider = some gl)
    (hsn : dget? p "serial_number" = some sn)
    (hbi : buildInstruments [] instrs = some instMap) :
    processDeployment dep
        ⟨.parsed tmpl, .parsed ga, .parsed pd, .parsed instrs,
         .parsed rawCat, .parsed profCat, some rawLines, po⟩
      = .done
          { metadata :=
              dset (dset (dset (dset (dset (dset
                (match tmpl.metadata with
                 | some m => dupdate m ga
                 | none => ga)
                "wmo_id" w1)
                "wmo_platform_code" w2)
                "deployment" (AVal.str dep))
                "deployment_name" (AVal.str dep))
                "glider_name" gl)
                "glider_serial" sn,
            platform := dupdate [] p,
            instruments := instMap,
            netcdf_variables :=
              (processSensors (combineCatalogs rawCat profCat).1
                ⟨tmpl.netcdf_variables, []⟩
                (rawLines.map (fun s => s.trim))).ncvars }
          (processSensors (combineCatalogs rawCat profCat).1
            ⟨tmpl.netcdf_variables, []⟩
            (rawLines.map (fun s => s.trim))).warnings := by
  simp only [processDeployment, hpp, hw1, hw2, hgl, hsn, hbi]

/-- C2 counterexample: the template's `platform` mapping holds
`colour = yellow`, a key absent from the platform document, yet the
compiled descriptor's `platform` has no `colour` key at all — the
template value is not kept, refuting the claim. -/
theorem c2_counterexample :
    (donePlatform (processDeployment "dep1" cfgC2)).isSome = true
    ∧ (donePlatform (processDeployment "dep1" cfgC2)).map (fun pl => dget? pl "colour")
        = some none
    ∧ dget? [("colour", AVal.str "yellow")] "colour" = some (AVal.str "yellow") :=
  ⟨rfl, rfl, rfl⟩

/-- C2 (amended): line 115 first resets `template_data["platform"]` to
an empty dict, so the compiled descriptor's `platform` mapping is the
empty mapping updated with the document's `platform` mapping — every
template `platform` key is discarded, whether or not the document also
carries it; only document keys and document values appear. -/
theorem c2_platform_reset (dep : String) (tmpl : Template)
    (ga : List (String × AVal)) (pd : PlatformDoc) (p : List (String × AVal))
    (w1 w2 gl sn : AVal) (instrs : List Instrument)
    (instMap : List (String × List (String × AVal)))
    (rawCat profCat : Catalog) (rawLines : List String) (po : Option Output)
    (out : Output) (ws : List String)
    (hpp : pd.platform = some p)
    (hw1 : dget? p "wmo_id" = some w1)
    (hw2 : dget? p "wmo_platform_code" = some w2)
    (hgl : pd.glider = some gl)
    (hsn : dget? p "serial_number" = some sn)
    (hbi : buildInstruments [] instrs = some instMap)
    (h : processDeployment dep
        ⟨.parsed tmpl, .parsed ga, .parsed pd, .parsed instrs,
         .parsed rawCat, .parsed profCat, some rawLines, po⟩ = .done out ws) :
    out.platform = dupdate [] p := by
  rw [processDeployment_done_eq dep tmpl ga pd p w1 w2 gl sn instrs instMap
    rawCat profCat rawLines po hpp hw1 hw2 hgl hsn hbi] at h
  cases h
  rfl

/-- Witness for C2 at `cfgC2`: the compiled platform mapping is exactly
the platform document's entries (the template's `colour` is gone). -/
theorem c2_platform_reset_witness :
    outC2.platform = dupdate []
      [("depth_rating", AVal.str "200m"), ("wmo_id", AVal.str "W"),
       ("wmo_platform_code", AVal.str "C"), ("serial_number", AVal.str "S")] :=
  c2_platform_reset "dep1" ⟨some [], some [("colour", AVal.str "yellow")], []⟩ []
    pdC2
    [("depth_rating", AVal.str "200m"), ("wmo_id", AVal.str "W"),
     ("wmo_platform_code", AVal.str "C"), ("serial_number", AVal.str "S")]
    (AVal.str "W") (AVal.str "C") (AVal.str "G") (AVal.str "S")
    [] [] [] [] [] none outC2 []
    rfl (by decide) (by decide) rfl (by decide) rfl (by decide)

/-- C6 counterexample: `wmo_id` is present both in the template's
`metadata` (value `T`) and in the global-attributes document (value
`GA`), yet the compiled descriptor's `metadata.wmo_id` is `W` — the
value copied from `platform.yml` at lines 135-137 — not the
global-attributes value, refuting the claim for the derived keys. -/
theorem c6_counterexample :
    (doneMetadata (processDeployment "dep1" cfgC6)).map (fun m => dget? m "wmo_id")
      = some (some (AVal.str "W"))
    ∧ dget? gaC6 "wmo_id" = some (AVal.str "GA")
    ∧ (tmplC6.metadata.map (fun m => dget? m "wmo_id")) = some (some (AVal.str "T")) :=
  ⟨rfl, rfl, rfl⟩

/-- C6 (amended): for a key present both in the global-attributes
document and in the template's `metadata`, the compiled descriptor's
`metadata` carries the global-attributes value — provided the key is not
one of the six keys (`wmo_id`, `wmo_platform_code`, `deployment`,
`deployment_name`, `glider_name`, `glider_serial`) that lines 134-146
overwrite afterwards with platform-derived values. -/
theorem c6_metadata_precedence (dep : String) (tmpl : Template)
    (ga md : List (String × AVal)) (pd : PlatformDoc) (p : List (String × AVal))
    (w1 w2 gl sn : AVal) (instrs : List Instrument)
    (instMap : List (String × List (String × AVal)))
    (rawCat profCat : Catalog) (rawLines : List String) (po : Option Output)
    (out : Output) (ws : List String) (k : String) (v : AVal)
    (hpp : pd.platform = some p)
    (hw1 : dget? p "wmo_id" = some w1)
    (hw2 : dget? p "wmo_platform_code" = some w2)
    (hgl : pd.glider = some gl)
    (hsn : dget? p "serial_number" = some sn)
    (hbi : buildInstruments [] instrs = some instMap)
    (htm : tmpl.metadata = some md)
    (hgnd : (ga.map Prod.fst).Nodup)
    (hkga : dget? ga k = some v)
    (_hkmd : (dget? md k).isSome = true)
    (hk6 : k ∉ ["wmo_id", "wmo_platform_code", "deployment",
      "deployment_name", "glider_name", "glider_serial"])
    (h : processDeployment dep
        ⟨.parsed tmpl, .parsed ga, .parsed pd, .parsed instrs,
         .parsed rawCat, .parsed profCat, some rawLines, po⟩ = .done out ws) :
    dget? out.metadata k = some v := by
  rw [processDeployment_done_eq dep tmpl ga pd p w1 w2 gl sn instrs instMap
    rawCat profCat rawLines po hpp hw1 hw2 hgl hsn hbi] at h
  cases h
  simp only [List.mem_cons, List.mem_singleton, not_or] at hk6
  obtain ⟨h1, h2, h3, h4, h5, h6, -⟩ := hk6
  show dget? (dset (dset (dset (dset (dset (dset
      (match tmpl.metadata with
       | some m => dupdate m ga
       | none => ga)
      "wmo_id" w1)
      "wmo_platform_code" w2)
      "deployment" (AVal.str dep))
      "deployment_name" (AVal.str dep))
      "glider_name" gl)
      "glider_serial" sn) k = some v
  rw [dget?_dset_ne _ _ _ _ (Ne.symm h6), dget?_dset_ne _ _ _ _ (Ne.symm h5),
    dget?_dset_ne _ _ _ _ (Ne.symm h4), dget?_dset_ne _ _ _ _ (Ne.symm h3),
    dget?_dset_ne _ _ _ _ (Ne.symm h2), dget?_dset_ne _ _ _ _ (Ne.symm h1),
    htm]
  show dget? (dupdate md ga) k = some v
  rw [dget?_dupdate ga md k hgnd, hkga, ofirst_some]

/-- Witness for C6 at `cfgC6` and the key `project`, present in both
the template metadata (`TP`) and the global attributes (`GP`): the
compiled value is `GP`. -/
theorem c6_metadata_precedence_witness :
    dget? outC6.metadata "project" = some (AVal.str "GP") :=
  c6_metadata_precedence "dep1" tmplC6 gaC6
    [("wmo_id", AVal.str "T"), ("project", AVal.str "TP")]
    pdGood
    [("wmo_id", AVal.str "W"), ("wmo_platform_code", AVal.str "C"),
     ("serial_number", AVal.str "S")]
    (AVal.str "W") (AVal.str "C") (AVal.str "G") (AVal.str "S")
    [] [] [] [] [] none outC6 [] "project" (AVal.str "GP")
    rfl (by decide) (by decide) rfl (by decide) rfl rfl (by decide) (by decide)
    (by decide) (by decide) (by decide)

end SbuGlider
